import Mathlib

/-!
Verification of the tutor-bot context/step configuration and of the
conversation state machine it configures.

The repository (`tutor_bot_demo.py`) declares a tree of contexts (subject
domains) and, per context, an ordered list of steps, each with a transition
whitelist (`valid_next_steps`, `valid_next_contexts`), isolation and
full-reset flags, enter fillers and a completion criterion.  The runtime
that executes transitions lives in the external `signalwire_agents` SDK;
where a definition embeds that runtime its doc comment says so and follows
the specification's wording.  Everything else is translated directly from
the configuration in the source file.
-/

namespace TutorBot

/-- A step of a context, as declared by the fluent `add_step` chains in
`tutor_bot_demo.py`.  `sections` records the declared section titles in
order (section bodies are opaque to the state machine and passed through
to prompt assembly); `text` is the scripted utterance of a `set_text`
step (`none` for a directive, sections-built step); `criterion` is the
`set_step_criteria` string, opaque to the machine. -/
structure Step where
  name : String
  sections : List String
  text : Option String
  criterion : String
  valid_next_steps : List String
  valid_next_contexts : List String
deriving Repr, DecidableEq

/-- A context, as declared by `contexts.add_context(...)` in
`tutor_bot_demo.py`: its isolation / full-reset flags, its own section
titles in declaration order, its steps in declaration order (the first
declared step is the context's entry step), and its enter fillers keyed
by language code. -/
structure Context where
  name : String
  isolated : Bool
  full_reset : Bool
  sections : List String
  steps : List Step
  enter_fillers : List (String × List String)
deriving Repr, DecidableEq

/-- The base prompt sections added by `prompt_add_section` in
`TutorBotAgent.__init__`, applying to every context (the global David
persona). -/
def baseSections : List String :=
  ["Role", "Core Identity", "Context Switching Instructions"]

/-- `ALL_CONTEXTS` from `tutor_bot_demo.py` line 105: the helper list that
every step's `set_valid_contexts` receives. -/
def ALL_CONTEXTS : List String :=
  ["math", "spanish", "french", "japanese", "science", "history", "other", "triage"]

/-- The `triage` context (source lines 108-119): entry point, isolated,
single `greeting` step with no intra-context successors. -/
def triage : Context :=
  { name := "triage"
    isolated := true
    full_reset := false
    sections := []
    steps :=
      [{ name := "greeting"
         sections := ["Current Task", "Key Actions", "Routing Instructions"]
         text := none
         criterion := "Student has clearly indicated which subject they need help with"
         valid_next_steps := []
         valid_next_contexts := ALL_CONTEXTS }]
    enter_fillers := [] }

/-- The `math` context (source lines 122-172): isolated, three steps
`assessment` -> `guided_solution` -> `practice`. -/
def math : Context :=
  { name := "math"
    isolated := true
    full_reset := false
    sections := ["Teaching Philosophy", "Voice", "Math Teaching Principles", "Teaching Style"]
    steps :=
      [{ name := "assessment"
         sections := ["Current Task", "Actions"]
         text := none
         criterion := "The specific math topic and student's level have been identified"
         valid_next_steps := ["guided_solution"]
         valid_next_contexts := ALL_CONTEXTS },
       { name := "guided_solution"
         sections := ["Current Task", "Teaching Method"]
         text := none
         criterion := "Student has successfully worked through at least one problem"
         valid_next_steps := ["practice", "assessment"]
         valid_next_contexts := ALL_CONTEXTS },
       { name := "practice"
         sections := ["Current Task", "Practice Strategy"]
         text := none
         criterion := "Student has completed practice problems or wants to end session"
         valid_next_steps := []
         valid_next_contexts := ALL_CONTEXTS }]
    enter_fillers := [] }

/-- The `spanish` context (source lines 175-235): isolated, four steps. -/
def spanish : Context :=
  { name := "spanish"
    isolated := true
    full_reset := false
    sections := ["Teaching Philosophy", "Voice", "Spanish Teaching Principles", "Language Approach"]
    steps :=
      [{ name := "immersion_greeting"
         sections := ["Current Task", "Actions"]
         text := none
         criterion := "Student's Spanish level has been assessed"
         valid_next_steps := ["conversation_practice"]
         valid_next_contexts := ALL_CONTEXTS },
       { name := "conversation_practice"
         sections := ["Current Task", "Conversation Approach"]
         text := none
         criterion := "Student has engaged in Spanish conversation for several exchanges"
         valid_next_steps := ["cultural_lesson", "grammar_moment"]
         valid_next_contexts := ALL_CONTEXTS },
       { name := "cultural_lesson"
         sections := ["Current Task", "Cultural Topics"]
         text := none
         criterion := "Cultural lesson completed"
         valid_next_steps := []
         valid_next_contexts := ALL_CONTEXTS },
       { name := "grammar_moment"
         sections := ["Current Task", "Grammar Teaching Approach"]
         text := none
         criterion := "Grammar point has been practiced in context"
         valid_next_steps := []
         valid_next_contexts := ALL_CONTEXTS }]
    enter_fillers := [] }

/-- The `french` context (source lines 238-268): isolated; `bonjour` is a
scripted (`set_text`) step. -/
def french : Context :=
  { name := "french"
    isolated := true
    full_reset := false
    sections := ["Teaching Philosophy", "Voice", "French Teaching Principles", "Language Approach"]
    steps :=
      [{ name := "bonjour"
         sections := []
         text := some "Bonjour! Comment allez-vous aujourd'hui? Let's work on your French together. What aspect would you like to focus on - conversation, pronunciation, or perhaps some grammar?"
         criterion := "Student has indicated their French learning focus"
         valid_next_steps := ["french_practice"]
         valid_next_contexts := ALL_CONTEXTS },
       { name := "french_practice"
         sections := ["Current Task", "Practice Areas"]
         text := none
         criterion := "French practice session completed"
         valid_next_steps := []
         valid_next_contexts := ALL_CONTEXTS }]
    enter_fillers := [] }

/-- The `japanese` context (source lines 271-317): the only context with
`set_full_reset(True)` (a fully distinct persona, Tanaka-sensei), with
enter fillers for `en-US` and a `default` fallback; `aisatsu` is a
scripted (`set_text`) step. -/
def japanese : Context :=
  { name := "japanese"
    isolated := true
    full_reset := true
    sections :=
      ["Role", "Teaching Philosophy", "Japanese Teaching Principles", "Language Approach",
       "Voice", "Context Switching Instructions (Tanaka-sensei)"]
    steps :=
      [{ name := "aisatsu"
         sections := []
         text := some "Konnichiwa! Welcome to Japanese learning! I'm Tanaka-sensei, and I'll be your guide. We'll explore Japanese through cultural context and practical usage. Would you like to practice conversation, learn new kanji characters, or work on grammar structures today?"
         criterion := "Student has indicated their Japanese learning focus"
         valid_next_steps := ["japanese_practice"]
         valid_next_contexts := ALL_CONTEXTS },
       { name := "japanese_practice"
         sections := ["Current Task", "Practice Approaches"]
         text := none
         criterion := "Japanese practice session completed"
         valid_next_steps := []
         valid_next_contexts := ALL_CONTEXTS }]
    enter_fillers :=
      [("en-US",
        ["Wonderful! Let me connect you with Tanaka-sensei. He uses a specialized Japanese voice system to help with authentic pronunciation. Here he is now!",
         "Perfect! I'll transfer you to Tanaka-sensei who has a special voice for authentic Japanese pronunciation. One moment...",
         "Great choice! Connecting you with Tanaka-sensei now. You'll notice his voice is optimized for Japanese language learning..."]),
       ("default",
        ["Transferring to Tanaka-sensei...",
         "Connecting to Japanese tutor..."])] }

/-- The `science` context (source lines 320-369): isolated, three steps. -/
def science : Context :=
  { name := "science"
    isolated := true
    full_reset := false
    sections := ["Teaching Philosophy", "Voice", "Science Teaching Principles", "Teaching Style"]
    steps :=
      [{ name := "inquiry"
         sections := ["Current Task", "Discovery Questions"]
         text := none
         criterion := "Science topic and student's current understanding identified"
         valid_next_steps := ["hypothesis"]
         valid_next_contexts := ALL_CONTEXTS },
       { name := "hypothesis"
         sections := ["Current Task", "Scientific Method"]
         text := none
         criterion := "Student has formed at least one hypothesis"
         valid_next_steps := ["exploration"]
         valid_next_contexts := ALL_CONTEXTS },
       { name := "exploration"
         sections := ["Current Task", "Exploration Method"]
         text := none
         criterion := "Core scientific concept has been explored and understood"
         valid_next_steps := []
         valid_next_contexts := ALL_CONTEXTS }]
    enter_fillers := [] }

/-- The `history` context (source lines 372-408): isolated, two steps. -/
def history : Context :=
  { name := "history"
    isolated := true
    full_reset := false
    sections := ["Teaching Philosophy", "Voice", "History Teaching Principles"]
    steps :=
      [{ name := "era_selection"
         sections := ["Current Task", "Selection Process"]
         text := none
         criterion := "Historical topic has been selected"
         valid_next_steps := ["historical_exploration"]
         valid_next_contexts := ALL_CONTEXTS },
       { name := "historical_exploration"
         sections := ["Current Task", "Exploration Approach"]
         text := none
         criterion := "Historical topic has been thoroughly explored"
         valid_next_steps := []
         valid_next_contexts := ALL_CONTEXTS }]
    enter_fillers := [] }

/-- The `other` context (source lines 411-447): isolated fallback, two
steps. -/
def other : Context :=
  { name := "other"
    isolated := true
    full_reset := false
    sections := ["Teaching Philosophy", "Voice", "General Teaching Principles"]
    steps :=
      [{ name := "identify_subject"
         sections := ["Current Task", "Discovery Process"]
         text := none
         criterion := "Subject and learning goals have been identified"
         valid_next_steps := ["general_tutoring"]
         valid_next_contexts := ALL_CONTEXTS },
       { name := "general_tutoring"
         sections := ["Current Task", "Tutoring Approach"]
         text := none
         criterion := "Student has received help with their subject or wants to switch topics"
         valid_next_steps := []
         valid_next_contexts := ALL_CONTEXTS }]
    enter_fillers := [] }

/-- The full configuration: the eight contexts in their declaration order
in `TutorBotAgent.__init__` (triage first, so it is the graph's entry
context). -/
def tutorBotContexts : List Context :=
  [triage, math, spanish, french, japanese, science, history, other]

/-- Modelled from the spec: the result taxonomy of `advance` (spec sections
4.2 and 7).  The transition-executing runtime is the external
`signalwire_agents` SDK, not code of this repository. -/
inductive TransitionResult where
  | stay
  | stepAdvanced
  | contextSwitched
  | illegalTransition
  | ambiguousTransition
  | awaitingExogenousEnd
  | notFound
deriving Repr, DecidableEq

/-- Modelled from the spec: the optional requested target accompanying a
positive oracle verdict, naming either a context or a step within the
current context. -/
inductive TransitionTarget where
  | toContext (name : String)
  | toStep (name : String)
deriving Repr, DecidableEq

/-- Modelled from the spec: a live session's mutable state — the
`(current_context, current_step)` pair, the append-only visited history
(entry timestamps are omitted: the history is never consulted for
transition legality), and the active prompt scope as a list of section
titles (the composition of spec section 4.2.1). -/
structure Session where
  current_context : String
  current_step : String
  visited_history : List (String × String)
  scope : List String
deriving Repr, DecidableEq

/-- Context lookup by name (the graph's `resolve`). -/
def findContext (g : List Context) (cname : String) : Option Context :=
  g.find? (fun c => c.name == cname)

/-- Step lookup by context and step name (the graph's `resolve_step`). -/
def findStep (g : List Context) (cname sname : String) : Option Step :=
  match findContext g cname with
  | none => none
  | some c => c.steps.find? (fun st => st.name == sname)

/-- Modelled from the spec: the prompt-scope composition on entering a
context (spec section 4.2.1 steps 2-4).  A full-reset context's own
sections become the entire scope; an isolated context's scope is the
global base sections plus its own; a non-isolated context appends its
sections to the previously active scope. -/
def contextEntryScope (prev : List String) (c : Context) : List String :=
  if c.full_reset then c.sections
  else if c.isolated then baseSections ++ c.sections
  else prev ++ c.sections

/-- Modelled from the spec: the context-switch algorithm (spec section
4.2.1).  The session enters the target context at its first-declared
(entry) step, appends that state to the visited history and recomputes
the prompt scope; a context with no steps cannot be entered (`notFound`,
excluded by graph validation). -/
def enterContext (s : Session) (c : Context) : TransitionResult × Session :=
  match c.steps with
  | [] => (.notFound, s)
  | entry :: _ =>
      (.contextSwitched,
        { current_context := c.name
          current_step := entry.name
          visited_history := s.visited_history ++ [(c.name, entry.name)]
          scope := contextEntryScope s.scope c })

/-- Modelled from the spec: `advance` with a positive verdict and no
explicit target (spec section 4.2).  With a single candidate in
`valid_next_steps` and no context candidates the machine auto-advances;
with no candidates at all the step is a natural session-ending leaf
(`awaitingExogenousEnd`); with more than one candidate combined the
machine returns `ambiguousTransition` and never guesses (spec section 9
resolves the tie-break this way). -/
def autoAdvance (s : Session) (st : Step) : TransitionResult × Session :=
  match st.valid_next_steps, st.valid_next_contexts with
  | [], [] => (.awaitingExogenousEnd, s)
  | [next], [] =>
      (.stepAdvanced,
        { s with current_step := next
                 visited_history := s.visited_history ++ [(s.current_context, next)] })
  | _, _ => (.ambiguousTransition, s)

/-- Modelled from the spec: the transition protocol `advance` (spec
section 4.2).  A false verdict is a no-op (`stay`); a requested context
target is checked against the current step's `valid_next_contexts` and a
requested step target against its `valid_next_steps`, an illegal target
leaving the session unchanged; a positive verdict without a target obeys
`autoAdvance`. -/
def advance (g : List Context) (s : Session) (verdict : Bool)
    (target : Option TransitionTarget) : TransitionResult × Session :=
  match verdict with
  | false => (.stay, s)
  | true =>
      match findStep g s.current_context s.current_step with
      | none => (.notFound, s)
      | some st =>
          match target with
          | some (.toContext cname) =>
              if cname ∈ st.valid_next_contexts then
                match findContext g cname with
                | none => (.notFound, s)
                | some c => enterContext s c
              else (.illegalTransition, s)
          | some (.toStep sname) =>
              if sname ∈ st.valid_next_steps then
                (.stepAdvanced,
                  { s with current_step := sname
                           visited_history := s.visited_history ++ [(s.current_context, sname)] })
              else (.illegalTransition, s)
          | none => autoAdvance s st

/-- The session as created at call start: the graph's entry point
`(triage, greeting)` with one visited-history entry and the entry scope
of the (isolated, non-full-reset) triage context. -/
def entrySession : Session :=
  { current_context := "triage"
    current_step := "greeting"
    visited_history := [("triage", "greeting")]
    scope := contextEntryScope baseSections triage }

/-- A session sitting at `(math, assessment)`, reached from the entry
point by switching to the `math` context. -/
def mathAssessmentSession : Session :=
  (enterContext entrySession math).2

/-- Modelled from the spec: the graph-validation failure cases of
`build` (spec section 4.1). -/
inductive ValidationError where
  | duplicateContextName
  | duplicateStepName
  | danglingReference
  | missingEntryStep
deriving Repr, DecidableEq

/-- Whether a list of names has no duplicate. -/
def nodupNames : List String → Bool
  | [] => true
  | x :: xs => !(xs.contains x) && nodupNames xs

/-- Whether one step's whitelists only name existing targets: every
`valid_next_steps` entry is a step name of the owning context and every
`valid_next_contexts` entry is a context name of the graph. -/
def stepRefsOk (ctxNames stepNames : List String) (st : Step) : Bool :=
  st.valid_next_steps.all (fun n => stepNames.contains n) &&
  st.valid_next_contexts.all (fun n => ctxNames.contains n)

/-- Whether every step of a context passes `stepRefsOk`. -/
def contextRefsOk (ctxNames : List String) (c : Context) : Bool :=
  c.steps.all (stepRefsOk ctxNames (c.steps.map Step.name))

/-- Whether some step of some context has a dangling whitelist entry. -/
def hasDanglingRef (ctxs : List Context) : Bool :=
  ctxs.any (fun c => !(contextRefsOk (ctxs.map Context.name) c))

/-- Modelled from the spec: graph construction `build` (spec section
4.1), performed by the external SDK when the declared configuration is
validated.  It fails when a context name is duplicated, a step name is
duplicated within a context, a transition target does not exist, or the
entry (first-declared) context has no steps. -/
def build (ctxs : List Context) : Except ValidationError (List Context) :=
  if !(nodupNames (ctxs.map Context.name)) then .error .duplicateContextName
  else if !(ctxs.all (fun c => nodupNames (c.steps.map Step.name))) then
    .error .duplicateStepName
  else if !(ctxs.all (contextRefsOk (ctxs.map Context.name))) then
    .error .danglingReference
  else
    match ctxs with
    | [] => .error .missingEntryStep
    | c :: _ => if c.steps.isEmpty then .error .missingEntryStep else .ok ctxs

/-- Modelled from the spec: the summary dispatcher's sink, a tagged
choice between the remote webhook and the local in-process handler
(`on_summary`). -/
inductive SummarySink where
  | remote (url : String)
  | localHandler
deriving Repr, DecidableEq

/-- From the source (`TutorBotAgent.__init__` lines 79-83): the
`POST_PROMPT_WEBHOOK_URL` value is read once at startup; when present,
`set_post_prompt_url` fixes the remote sink, otherwise the SDK falls back
to the local `on_summary` handler. -/
def chooseSink (webhook_url : Option String) : SummarySink :=
  match webhook_url with
  | some url => .remote url
  | none => .localHandler

/-- Delivery counts of one session end: attempts against the remote sink
and invocations of the local `on_summary` handler. -/
structure SinkDeliveries where
  remote_attempts : Nat
  local_invocations : Nat
deriving Repr, DecidableEq

/-- Modelled from the spec: the SDK's end-of-session dispatch (spec
section 4.4) delivers the structured summary to exactly the one
configured sink — one attempt against the remote webhook when it is
configured, otherwise one invocation of the local handler. -/
def dispatchSummary (sink : SummarySink) : SinkDeliveries :=
  match sink with
  | .remote _ => { remote_attempts := 1, local_invocations := 0 }
  | .localHandler => { remote_attempts := 0, local_invocations := 1 }

/-- The deliveries of `k` successive session ends of one process run:
every session uses the sink resolved once at startup. -/
def runDeliveries (sink : SummarySink) (k : Nat) : List SinkDeliveries :=
  List.replicate k (dispatchSummary sink)

/-- C1: at the entry state `(triage, greeting)`, `advance true` with
requested target context `math` returns `contextSwitched`; the new state
is `(math, assessment)` where `assessment` is the first-declared step of
the `math` context, and the visited history has length 2. -/
theorem scenario_a_context_switch :
    (advance tutorBotContexts entrySession true
        (some (.toContext "math"))).1 = .contextSwitched ∧
    (advance tutorBotContexts entrySession true
        (some (.toContext "math"))).2.current_context = "math" ∧
    (advance tutorBotContexts entrySession true
        (some (.toContext "math"))).2.current_step = "assessment" ∧
    (math.steps.map Step.name).head? = some "assessment" ∧
    (advance tutorBotContexts entrySession true
        (some (.toContext "math"))).2.visited_history.length = 2 := by
  decide

/-- C2: for every graph, every session and every requested target that the
current step's whitelist does not contain — a context target outside
`valid_next_contexts` or a step target outside `valid_next_steps` —
`advance true` returns `illegalTransition` and leaves the session (its
current context, current step and visited history) unchanged. -/
theorem whitelist_enforcement (g : List Context) (s : Session) (st : Step)
    (hstep : findStep g s.current_context s.current_step = some st) :
    (∀ cname, cname ∉ st.valid_next_contexts →
        advance g s true (some (.toContext cname)) = (.illegalTransition, s)) ∧
    (∀ sname, sname ∉ st.valid_next_steps →
        advance g s true (some (.toStep sname)) = (.illegalTransition, s)) := by
  constructor
  · intro cname hc
    simp [advance, hstep, hc]
  · intro sname hs
    simp [advance, hstep, hs]

/-- Witness for C2: at the entry state, the target context `astronomy` is
outside `greeting.valid_next_contexts` and is rejected with the session
unchanged. -/
theorem whitelist_enforcement_witness :
    advance tutorBotContexts entrySession true (some (.toContext "astronomy")) =
      (.illegalTransition, entrySession) :=
  (whitelist_enforcement tutorBotContexts entrySession
      { name := "greeting"
        sections := ["Current Task", "Key Actions", "Routing Instructions"]
        text := none
        criterion := "Student has clearly indicated which subject they need help with"
        valid_next_steps := []
        valid_next_contexts := ALL_CONTEXTS }
      (by decide)).1 "astronomy" (by decide)

/-- C3 counterexample: at `(math, assessment)` the requested target
context `japanese` IS in `assessment.valid_next_contexts` (every step of
the configuration whitelists `ALL_CONTEXTS`, which contains `japanese`),
so `advance true` does not return `illegalTransition` and does not leave
the state at `(math, assessment)`. -/
theorem scenario_b_not_illegal :
    "japanese" ∈ ALL_CONTEXTS ∧
    (advance tutorBotContexts mathAssessmentSession true
        (some (.toContext "japanese"))).1 ≠ .illegalTransition ∧
    (advance tutorBotContexts mathAssessmentSession true
        (some (.toContext "japanese"))).2.current_context ≠ "math" := by
  decide

/-- C3 amended: at `(math, assessment)`, `advance true` with requested
target context `japanese` returns `contextSwitched` — `japanese` is in
`assessment.valid_next_contexts` — and the new state is
`(japanese, aisatsu)`. -/
theorem scenario_b_switches_to_japanese :
    (advance tutorBotContexts mathAssessmentSession true
        (some (.toContext "japanese"))).1 = .contextSwitched ∧
    (advance tutorBotContexts mathAssessmentSession true
        (some (.toContext "japanese"))).2.current_context = "japanese" ∧
    (advance tutorBotContexts mathAssessmentSession true
        (some (.toContext "japanese"))).2.current_step = "aisatsu" := by
  decide

/-- C4: a false oracle verdict is a no-op — for every graph, session and
requested target (including none), `advance false` returns `stay` and the
session, in particular its current context and current step, is
unchanged. -/
theorem stay_on_false_verdict (g : List Context) (s : Session)
    (t : Option TransitionTarget) :
    advance g s false t = (.stay, s) := rfl

/-- Helper: a targetless advance never changes the active prompt scope. -/
theorem autoAdvance_scope (s : Session) (st : Step) :
    (autoAdvance s st).2.scope = s.scope := by
  unfold autoAdvance
  rcases hvs : st.valid_next_steps with _ | ⟨a, _ | ⟨b, tl⟩⟩ <;>
    rcases hvc : st.valid_next_contexts with _ | ⟨c, cs⟩ <;>
      simp [hvs, hvc]

/-- Helper: any `advance` outcome other than a context switch leaves the
active prompt scope untouched — only the context-switch algorithm
recomputes it. -/
theorem advance_scope_frame (g : List Context) (s : Session) (v : Bool)
    (t : Option TransitionTarget)
    (h : (advance g s v t).1 ≠ TransitionResult.contextSwitched) :
    (advance g s v t).2.scope = s.scope := by
  cases v with
  | false => rfl
  | true =>
    cases hf : findStep g s.current_context s.current_step with
    | none => simp [advance, hf]
    | some st =>
      cases t with
      | none => simp [advance, hf, autoAdvance_scope]
      | some tgt =>
        cases tgt with
        | toStep sname =>
          by_cases hm : sname ∈ st.valid_next_steps <;> simp [advance, hf, hm]
        | toContext cname =>
          by_cases hm : cname ∈ st.valid_next_contexts
          · simp only [advance, hf, hm, if_true, eq_true hm] at h ⊢
            cases hc : findContext g cname with
            | none => simp [hc]
            | some c =>
              cases hcs : c.steps with
              | nil => simp [hc, enterContext, hcs]
              | cons e rest =>
                exact absurd (by simp [hc, enterContext, hcs]) h
          · simp [advance, hf, hm]

/-- C5: the `japanese` context is declared with `full_reset` true, and
entering a full-reset context drops even the global base sections: the
prompt scope after entry is exactly the context's own sections, whatever
was active before; concretely, switching from `(math, assessment)` (whose
scope contains the base section `Core Identity`) to `japanese` leaves a
scope equal to `japanese.sections` with no base section in it.  The scope
then stays untouched by every non-switch `advance` outcome, and only a
subsequent entry of a non-full-reset (isolated) context restores the
global base sections. -/
theorem full_reset_drops_base :
    japanese.full_reset = true ∧
    (∀ prev : List String, contextEntryScope prev japanese = japanese.sections) ∧
    ("Core Identity" ∈ mathAssessmentSession.scope ∧
     (advance tutorBotContexts mathAssessmentSession true
         (some (.toContext "japanese"))).2.scope = japanese.sections ∧
     "Core Identity" ∉ (advance tutorBotContexts mathAssessmentSession true
         (some (.toContext "japanese"))).2.scope) ∧
    (∀ (g : List Context) (s : Session) (v : Bool) (t : Option TransitionTarget),
        (advance g s v t).1 ≠ TransitionResult.contextSwitched →
        (advance g s v t).2.scope = s.scope) ∧
    (∀ (s : Session) (c : Context), c.full_reset = false → c.isolated = true →
        (enterContext s c).2.scope = s.scope ∨
        (enterContext s c).2.scope = baseSections ++ c.sections) := by
  refine ⟨rfl, fun prev => rfl, by decide, advance_scope_frame, ?_⟩
  intro s c hfr hiso
  cases hcs : c.steps with
  | nil => left; simp [enterContext, hcs]
  | cons e rest => right; simp [enterContext, hcs, contextEntryScope, hfr, hiso]

/-- C6: the summary sink is resolved once at startup from the configured
webhook value; with a remote callback target configured, every session
end of the run produces exactly one delivery attempt to the remote sink
and zero invocations of the local `on_summary` handler. -/
theorem summary_single_sink (url : String) (k : Nat) :
    chooseSink (some url) = .remote url ∧
    dispatchSummary (chooseSink (some url)) =
      { remote_attempts := 1, local_invocations := 0 } ∧
    ∀ d ∈ runDeliveries (chooseSink (some url)) k,
        d.remote_attempts = 1 ∧ d.local_invocations = 0 := by
  refine ⟨rfl, rfl, ?_⟩
  intro d hd
  rw [runDeliveries] at hd
  have hde := List.eq_of_mem_replicate hd
  subst hde
  exact ⟨rfl, rfl⟩

/-- C7: graph validation succeeds on this configuration — every
`valid_next_steps` entry names a step of the same context and every
`valid_next_contexts` entry names a context of the graph — and `build` on
any list of contexts containing a dangling whitelist reference always
fails with a `ValidationError`. -/
theorem graph_validity :
    build tutorBotContexts = .ok tutorBotContexts ∧
    (tutorBotContexts.all
        (contextRefsOk (tutorBotContexts.map Context.name))) = true ∧
    (∀ ctxs : List Context, hasDanglingRef ctxs = true →
        ∃ e, build ctxs = .error e) := by
  refine ⟨rfl, by decide, ?_⟩
  intro ctxs hd
  unfold build
  split
  · exact ⟨_, rfl⟩
  · split
    · exact ⟨_, rfl⟩
    · split
      · exact ⟨_, rfl⟩
      · exfalso
        rename_i h1 h2 h3
        rw [Bool.not_eq_true, Bool.not_eq_false'] at h3
        unfold hasDanglingRef at hd
        rw [List.any_eq_true] at hd
        obtain ⟨c, hcmem, hcbad⟩ := hd
        rw [Bool.not_eq_true'] at hcbad
        have hall := List.all_eq_true.mp h3 c hcmem
        rw [hcbad] at hall
        exact Bool.false_ne_true hall

/-- C8 counterexample: at `(math, assessment)` the current step's
`valid_next_steps` has exactly one member (`guided_solution`), yet
`advance true` with no requested target does not auto-advance to it: it
returns `ambiguousTransition` and leaves the session unchanged, because
the step also whitelists eight next contexts. -/
theorem auto_advance_counterexample :
    (findStep tutorBotContexts "math" "assessment").map Step.valid_next_steps =
      some ["guided_solution"] ∧
    (advance tutorBotContexts mathAssessmentSession true none).1 =
      TransitionResult.ambiguousTransition ∧
    (advance tutorBotContexts mathAssessmentSession true none).2 =
      mathAssessmentSession := by
  decide

/-- C8 amended: with a positive verdict and no requested target, the
machine auto-advances exactly when `valid_next_steps` is a singleton and
`valid_next_contexts` is empty, so that the singleton is the only
candidate; whenever more than one candidate exists across
`valid_next_steps` and `valid_next_contexts` combined it returns
`ambiguousTransition`, leaving the session unchanged and never picking
among them. -/
theorem auto_advance_amended (g : List Context) (s : Session) (st : Step)
    (hstep : findStep g s.current_context s.current_step = some st) :
    (∀ next, st.valid_next_steps = [next] → st.valid_next_contexts = [] →
        (advance g s true none).1 = TransitionResult.stepAdvanced ∧
        (advance g s true none).2.current_step = next) ∧
    (1 < st.valid_next_steps.length + st.valid_next_contexts.length →
        advance g s true none = (.ambiguousTransition, s)) := by
  have hadv : advance g s true none = autoAdvance s st := by
    simp [advance, hstep]
  constructor
  · intro next h1 h2
    rw [hadv]
    unfold autoAdvance
    simp [h1, h2]
  · intro hlen
    rw [hadv]
    unfold autoAdvance
    rcases hvs : st.valid_next_steps with _ | ⟨a, _ | ⟨b, tl⟩⟩ <;>
      rcases hvc : st.valid_next_contexts with _ | ⟨c, cs⟩ <;>
        simp [hvs, hvc] at hlen ⊢

/-- Witness for the amended C8: at `(math, assessment)` the nine combined
candidates (one step, eight contexts) make the targetless advance
ambiguous. -/
theorem auto_advance_amended_witness :
    advance tutorBotContexts mathAssessmentSession true none =
      (.ambiguousTransition, mathAssessmentSession) :=
  (auto_advance_amended tutorBotContexts mathAssessmentSession
      { name := "assessment"
        sections := ["Current Task", "Actions"]
        text := none
        criterion := "The specific math topic and student's level have been identified"
        valid_next_steps := ["guided_solution"]
        valid_next_contexts := ALL_CONTEXTS }
      (by decide)).2 (by decide)

/-- C9: every one of the eight declared contexts sets `isolated` to true,
`japanese` is the only context with `full_reset` true, and consequently
the non-isolated append branch of the context-entry scope composition is
unreachable in this configuration: the scope entered with any context of
the graph never depends on the previously active scope. -/
theorem all_contexts_isolated :
    (tutorBotContexts.all fun c => c.isolated) = true ∧
    (tutorBotContexts.all fun c => c.full_reset == (c.name == "japanese")) = true ∧
    (∀ c ∈ tutorBotContexts, ∀ prev prev2 : List String,
        contextEntryScope prev c = contextEntryScope prev2 c) := by
  refine ⟨by decide, by decide, ?_⟩
  intro c hc prev prev2
  have hiso : c.isolated = true := by
    have hall : (tutorBotContexts.all fun c => c.isolated) = true := by decide
    exact List.all_eq_true.mp hall c hc
  unfold contextEntryScope
  by_cases hfr : c.full_reset = true
  · simp [hfr]
  · simp [hfr, hiso]

/-- Witness for C9: the scope entered with `math` is the same whether the
previous scope was empty or the base sections. -/
theorem all_contexts_isolated_witness :
    contextEntryScope [] math = contextEntryScope baseSections math :=
  all_contexts_isolated.2.2 math (by decide) [] baseSections

/-- Helper: every step that `findStep` resolves in this configuration
whitelists exactly `ALL_CONTEXTS` as its next contexts. -/
theorem tutorStep_vnc (cname sname : String) (st : Step)
    (h : findStep tutorBotContexts cname sname = some st) :
    st.valid_next_contexts = ALL_CONTEXTS := by
  unfold findStep at h
  cases hc : findContext tutorBotContexts cname with
  | none => simp [hc] at h
  | some c =>
    simp only [hc] at h
    have hcm : c ∈ tutorBotContexts := List.mem_of_find?_eq_some hc
    have hsm : st ∈ c.steps := List.mem_of_find?_eq_some h
    have hall : ∀ c ∈ tutorBotContexts, ∀ s ∈ c.steps,
        s.valid_next_contexts = ALL_CONTEXTS := by decide
    exact hall c hcm st hsm

/-- C10: every step of the configuration receives the same `ALL_CONTEXTS`
list of all eight contexts as `valid_next_contexts`, so no step has both
whitelists empty; `advance` on this graph therefore never returns
`awaitingExogenousEnd` — for any session state (reachable or not), any
verdict and any requested target. -/
theorem no_awaiting_end :
    (tutorBotContexts.all fun c =>
        c.steps.all fun st => st.valid_next_contexts == ALL_CONTEXTS) = true ∧
    (∀ (s : Session) (v : Bool) (t : Option TransitionTarget),
        (advance tutorBotContexts s v t).1 ≠
          TransitionResult.awaitingExogenousEnd) := by
  refine ⟨by decide, ?_⟩
  intro s v t
  cases v with
  | false => simp [advance]
  | true =>
    cases hf : findStep tutorBotContexts s.current_context s.current_step with
    | none => simp [advance, hf]
    | some st =>
      have hvnc := tutorStep_vnc _ _ _ hf
      cases t with
      | none =>
        have hadv : advance tutorBotContexts s true none = autoAdvance s st := by
          simp [advance, hf]
        rw [hadv]
        unfold autoAdvance
        rcases hvs : st.valid_next_steps with _ | ⟨a, _ | ⟨b, tl⟩⟩ <;>
          simp [hvs, hvnc, ALL_CONTEXTS]
      | some tgt =>
        cases tgt with
        | toContext cname =>
          by_cases hm : cname ∈ st.valid_next_contexts
          · cases hc : findContext tutorBotContexts cname with
            | none => simp [advance, hf, hm, hc]
            | some c =>
              cases hcs : c.steps with
              | nil => simp [advance, hf, hm, hc, enterContext, hcs]
              | cons e rest => simp [advance, hf, hm, hc, enterContext, hcs]
          · simp [advance, hf, hm]
        | toStep sname =>
          by_cases hm : sname ∈ st.valid_next_steps <;> simp [advance, hf, hm]

end TutorBot
